import Mathlib

/-!
Verification development for the DQAD payer-claims data-quality engine.

The engine validates batches of insurance claim records, detects statistical
outliers among the rule-clean records, assigns every record to one of three
tiers (GOLD / SILVER / QUARANTINE) and reduces the classified batch to a
metrics snapshot.

Two reference implementations of the rule validator exist in the repository:
* the Spark/Glue job (`src/glue/dqad_etl_job.py`, `validate_data_quality`),
  where each `when/.when/.otherwise` chain records at most one issue code
  per record (first match within the chain wins), with SQL three-valued
  null semantics (a null comparison selects no branch);
* the pandas reference used for validation testing
  (`src/data/test_dq_validation.py`, `validate_data_quality`), where every
  rule fires independently (additive accumulation).
Both are embedded below; dates are modelled as integer day numbers and claim
amounts as rationals.
-/

/-- Calendar date, modelled as an integer day number (the embedding of the
`DateType` columns; ordering and day differences are all the code uses). -/
abbrev Date := Int

/-- Closed enumeration of the data-quality issue codes emitted by the
validators (§4.1 rule catalogue). -/
inductive IssueCode where
  | MISSING_MEMBER_ID
  | MISSING_NPI
  | MISSING_CPT
  | MISSING_DIAGNOSIS
  | MISSING_AMOUNT
  | INVALID_NPI
  | NEGATIVE_AMOUNT
  | EXCESSIVE_AMOUNT
  | FUTURE_SERVICE_DATE
  | LATE_SUBMISSION
  | SUBMISSION_BEFORE_SERVICE
  | INVALID_STATUS
  | INVALID_GENDER
  | INVALID_ZIP
  deriving DecidableEq

open IssueCode

/-- One claim record (the `claims_schema` of the Glue job).  Optional fields
model nullable columns; `none` is a null / unparsable value. -/
structure Claim where
  claim_id : String
  member_id : Option String := none
  provider_id : Option String := none
  provider_npi : Option String := none
  cpt_code : Option String := none
  icd10_code : Option String := none
  claim_amount : Option ℚ := none
  service_date : Option Date := none
  submission_date : Option Date := none
  claim_status : Option String := none
  patient_gender : Option String := none
  patient_zip : Option String := none
  deriving DecidableEq

/-- Threshold `DQ_THRESHOLDS["min_claim_amount"]`. -/
def minClaimAmount : ℚ := 0
/-- Threshold `DQ_THRESHOLDS["max_claim_amount"]`. -/
def maxClaimAmount : ℚ := 100000
/-- Threshold `DQ_THRESHOLDS["max_days_to_submission"]`. -/
def maxDaysToSubmission : Int := 365
/-- Source list `valid_statuses = ["PAID", "DENIED", "PENDING"]`. -/
def validStatuses : List String := ["PAID", "DENIED", "PENDING"]
/-- Source list `valid_genders = ["M", "F", "U"]`. -/
def validGenders : List String := ["M", "F", "U"]

/-- Null-propagating `<` against a constant: a null operand compares false
(Spark `col < lit` is null on null input, and `when` treats null as false;
pandas comparisons with NaN are False). -/
def nLt (x : Option ℚ) (y : ℚ) : Bool :=
  match x with
  | some v => v < y
  | none => false

/-- Null-propagating `>` against a constant. -/
def nGt (x : Option ℚ) (y : ℚ) : Bool :=
  match x with
  | some v => y < v
  | none => false

/-- Null-propagating date `>` against a constant date (`col("service_date") >
lit(current_date)`). -/
def dateGt (x : Option Date) (y : Date) : Bool :=
  match x with
  | some d => y < d
  | none => false

/-- Null-propagating `datediff(sub, svc) > k`: false when either date is
null/unparsable. -/
def dateDiffGt (sub svc : Option Date) (k : Int) : Bool :=
  match sub, svc with
  | some s2, some s1 => k < s2 - s1
  | _, _ => false

/-- Null-propagating date `<` between two date columns. -/
def dateBefore (a b : Option Date) : Bool :=
  match a, b with
  | some x, some y => x < y
  | _, _ => false

/-- Condition `length(npi) == 10 AND npi rlike "^[0-9]{10}$"`: exactly ten decimal
digits. -/
def isTenDigitNpi (s : String) : Bool :=
  s.length == 10 && s.toList.all Char.isDigit

/-- Pattern `zip rlike "^[0-9]{5}(-[0-9]{4})?$"`: five digits, optionally followed by
a dash and four digits. -/
def zipOK (s : String) : Bool :=
  let cs := s.toList
  (cs.length == 5 && cs.all Char.isDigit) ||
  (cs.length == 10 && (cs.take 5).all Char.isDigit &&
    cs.get? 5 == some '-' && (cs.drop 6).all Char.isDigit)

/-! ### The Glue/Spark rule validator (`validate_data_quality`, Glue job)

Each `withColumn` with a `when/.when/.otherwise` chain is one block; within a
block the first true condition appends its code and the rest of the chain is
skipped.  A null comparison is null, which selects no branch. -/

/-- Block 1 of the Glue validator: null/missing-value checks (one chained
`when` expression, first match wins). -/
def glueNullBlock (c : Claim) : List IssueCode :=
  if c.member_id = none then [MISSING_MEMBER_ID]
  else if c.provider_npi = none then [MISSING_NPI]
  else if c.cpt_code = none then [MISSING_CPT]
  else if c.icd10_code = none ∨ c.icd10_code = some "" then [MISSING_DIAGNOSIS]
  else if c.claim_amount = none then [MISSING_AMOUNT]
  else []

/-- Block 2: NPI format.  `~npi_valid` is null when `provider_npi` is null
(the `length` and `rlike` of a null are null), so a null NPI fires nothing
here. -/
def glueNpiBlock (c : Claim) : List IssueCode :=
  match c.provider_npi with
  | some s => if isTenDigitNpi s then [] else [INVALID_NPI]
  | none => []

/-- Block 3: claim-amount range checks (chained; the two conditions are
mutually exclusive, null amount fires neither). -/
def glueAmountBlock (c : Claim) : List IssueCode :=
  if nLt c.claim_amount minClaimAmount then [NEGATIVE_AMOUNT]
  else if nGt c.claim_amount maxClaimAmount then [EXCESSIVE_AMOUNT]
  else []

/-- Block 4: date checks (one chained `when` expression, first match wins;
`today` is `datetime.now().date()` at evaluation time). -/
def glueDateBlock (today : Date) (c : Claim) : List IssueCode :=
  if dateGt c.service_date today then [FUTURE_SERVICE_DATE]
  else if dateDiffGt c.submission_date c.service_date maxDaysToSubmission then
    [LATE_SUBMISSION]
  else if dateBefore c.submission_date c.service_date then
    [SUBMISSION_BEFORE_SERVICE]
  else []

/-- Block 5: claim status.  `~isin` of a null is null, so a null status fires
nothing in the Glue validator. -/
def glueStatusBlock (c : Claim) : List IssueCode :=
  match c.claim_status with
  | some s => if s ∈ validStatuses then [] else [INVALID_STATUS]
  | none => []

/-- Block 6: patient gender (same null semantics as the status block). -/
def glueGenderBlock (c : Claim) : List IssueCode :=
  match c.patient_gender with
  | some s => if s ∈ validGenders then [] else [INVALID_GENDER]
  | none => []

/-- Block 7: ZIP shape (`~rlike` of a null is null, so a null ZIP fires
nothing). -/
def glueZipBlock (c : Claim) : List IssueCode :=
  match c.patient_zip with
  | some s => if zipOK s then [] else [INVALID_ZIP]
  | none => []

/-- The Glue validator's accumulated `dq_issues` for one record, as the list
of appended codes in block order. -/
def glueIssues (today : Date) (c : Claim) : List IssueCode :=
  glueNullBlock c ++ glueNpiBlock c ++ glueAmountBlock c ++
  glueDateBlock today c ++ glueStatusBlock c ++ glueGenderBlock c ++
  glueZipBlock c

/-! ### The pandas reference rule validator (`test_dq_validation.py`)

Every rule appends its code independently (`df.loc[cond, 'dq_issues'] +=
code`); the accumulation is additive.  Pandas null semantics differ from
Spark's in three places: `astype(str)` turns a missing NPI into the literal
string `"nan"` (which fails the ten-digit match, so INVALID_NPI fires), and
`isin` of NaN is False, so a missing status or gender fires
INVALID_STATUS / INVALID_GENDER.  This implementation has no ZIP rule. -/

/-- Condition `df['provider_npi'].astype(str).str.match(ten digits)`; a missing NPI
becomes the string `"nan"` and fails the match. -/
def pdNpiValid (c : Claim) : Bool :=
  match c.provider_npi with
  | some s => isTenDigitNpi s
  | none => false

/-- Condition `~df['claim_status'].isin(VALID_STATUSES)`; `isin` of NaN is False, so a
missing status is invalid. -/
def pdStatusInvalid (c : Claim) : Bool :=
  match c.claim_status with
  | some s => !(validStatuses.contains s)
  | none => true

/-- Condition `~df['patient_gender'].isin(VALID_GENDERS)`. -/
def pdGenderInvalid (c : Claim) : Bool :=
  match c.patient_gender with
  | some s => !(validGenders.contains s)
  | none => true

/-- The pandas validator's accumulated `dq_issues` for one record: every
rule appends independently, in source order. -/
def pdIssues (today : Date) (c : Claim) : List IssueCode :=
  (if c.member_id = none then [MISSING_MEMBER_ID] else []) ++
  (if c.provider_npi = none then [MISSING_NPI] else []) ++
  (if c.cpt_code = none then [MISSING_CPT] else []) ++
  (if c.icd10_code = none ∨ c.icd10_code = some "" then [MISSING_DIAGNOSIS] else []) ++
  (if c.claim_amount = none then [MISSING_AMOUNT] else []) ++
  (if pdNpiValid c then [] else [INVALID_NPI]) ++
  (if nLt c.claim_amount minClaimAmount then [NEGATIVE_AMOUNT] else []) ++
  (if nGt c.claim_amount maxClaimAmount then [EXCESSIVE_AMOUNT] else []) ++
  (if dateGt c.service_date today then [FUTURE_SERVICE_DATE] else []) ++
  (if dateDiffGt c.submission_date c.service_date maxDaysToSubmission then
    [LATE_SUBMISSION] else []) ++
  (if dateBefore c.submission_date c.service_date then
    [SUBMISSION_BEFORE_SERVICE] else []) ++
  (if pdStatusInvalid c then [INVALID_STATUS] else []) ++
  (if pdGenderInvalid c then [INVALID_GENDER] else [])

/-- The per-rule condition of the additive catalogue, one per issue code, in
the words of the source conditions.  The pandas reference implementation has
no ZIP rule (the spec notes the rule is present in only one of the two
pipelines), so the INVALID_ZIP condition of this catalogue is `False`. -/
def ruleCond (today : Date) (c : Claim) : IssueCode → Prop
  | MISSING_MEMBER_ID => c.member_id = none
  | MISSING_NPI => c.provider_npi = none
  | MISSING_CPT => c.cpt_code = none
  | MISSING_DIAGNOSIS => c.icd10_code = none ∨ c.icd10_code = some ""
  | MISSING_AMOUNT => c.claim_amount = none
  | INVALID_NPI => pdNpiValid c = false
  | NEGATIVE_AMOUNT => nLt c.claim_amount minClaimAmount = true
  | EXCESSIVE_AMOUNT => nGt c.claim_amount maxClaimAmount = true
  | FUTURE_SERVICE_DATE => dateGt c.service_date today = true
  | LATE_SUBMISSION =>
      dateDiffGt c.submission_date c.service_date maxDaysToSubmission = true
  | SUBMISSION_BEFORE_SERVICE =>
      dateBefore c.submission_date c.service_date = true
  | INVALID_STATUS => pdStatusInvalid c = true
  | INVALID_GENDER => pdGenderInvalid c = true
  | INVALID_ZIP => False

/-! ### Tiering pipeline (Glue job, after `validate_data_quality`) -/

/-- Flag `has_dq_issues = length(dq_issues) > 0`. -/
def hasIssues (today : Date) (c : Claim) : Bool :=
  !(glueIssues today c).isEmpty

/-- Split `clean_df = dq_df.filter(~has_dq_issues)`. -/
def cleanOf (today : Date) (b : List Claim) : List Claim :=
  b.filter (fun c => !(hasIssues today c))

/-- Split `dq_failures_df = dq_df.filter(has_dq_issues)`: the SILVER tier. -/
def silverOf (today : Date) (b : List Claim) : List Claim :=
  b.filter (fun c => hasIssues today c)

/-- The `claim_amount` as a rational (total accessor; only applied to records
whose amount is present). -/
def amt (c : Claim) : ℚ :=
  c.claim_amount.getD 0

/-- The `cpt_code` peer group of a claim inside a list: the rows whose
`cpt_code` joins with the claim's (SQL join semantics: null keys never
match). -/
def groupOf (l : List Claim) (c : Claim) : List Claim :=
  l.filter (fun d =>
    match c.cpt_code, d.cpt_code with
    | some k1, some k2 => k1 == k2
    | _, _ => false)

/-- Aggregate `avg("claim_amount")` over a group. -/
def meanAmt (g : List Claim) : ℚ :=
  (g.map amt).sum / g.length

/-- Aggregate `stddev("claim_amount")` squared over a group: the sample variance,
null (`none`) for groups of fewer than two rows (Spark `stddev_samp` and
pandas `std` are null/NaN there). -/
def sampleVar (g : List Claim) : Option ℚ :=
  if g.length ≤ 1 then none
  else some (((g.map amt).map (fun x => (x - meanAmt g) ^ 2)).sum /
    ((g.length : ℚ) - 1))

/-- The per-row z-score formula of the source, given the group's mean and
standard deviation as joined columns: `(amount - mean) / stddev` when
`stddev > 0`, else `0`. -/
def zScoreWith (m s x : ℚ) : ℚ :=
  if 0 < s then (x - m) / s else 0

/-- Flag `is_statistical_outlier = abs(z_score) > 3`.  The source computes
`z = (amount - mean) / stddev` when `stddev > 0` (else `z = 0`) and flags
`|z| > 3`; since `stddev = sqrt variance`, over the positive-variance guard
this is equivalent to `(amount - mean)^2 > 9 * variance`, which is the form
used here so that the whole pipeline stays inside `ℚ`. -/
def outlierIn (g : List Claim) (c : Claim) : Bool :=
  match sampleVar g with
  | some v => decide (0 < v) && decide (9 * v < (amt c - meanAmt g) ^ 2)
  | none => false

/-- The outlier flag of one record of a batch, scored against its `cpt_code`
group among the validator-passed records. -/
def outFlag (today : Date) (b : List Claim) (c : Claim) : Bool :=
  outlierIn (groupOf (cleanOf today b) c) c

/-- Split `gold_claims = claims_with_outliers.filter(~is_statistical_outlier)`. -/
def goldOf (today : Date) (b : List Claim) : List Claim :=
  (cleanOf today b).filter (fun c => !(outFlag today b c))

/-- Split `statistical_outliers = claims_with_outliers.filter(is_statistical_outlier)`:
the QUARANTINE tier. -/
def quarOf (today : Date) (b : List Claim) : List Claim :=
  (cleanOf today b).filter (fun c => outFlag today b c)

/-- The batch-level run of the validator: every record tagged with its
accumulated issue list (each `withColumn` is a row-wise map). -/
def validateBatch (today : Date) (b : List Claim) : List (Claim × List IssueCode) :=
  b.map (fun c => (c, glueIssues today c))

/-! ### Metrics aggregator (`calculate_dq_metrics`, Glue job) -/

/-- The metrics snapshot (`calculate_dq_metrics` return value; the timestamp
and source-file fields carry no logic and are omitted). -/
structure DQMetrics where
  total_records : ℤ
  gold_records : ℤ
  silver_records : ℤ
  quarantine_records : ℤ
  total_anomalies : ℤ
  data_quality_score : ℚ
  anomaly_rate : ℚ
  deriving DecidableEq

/-- The source function `calculate_dq_metrics(raw_count, clean_count, dq_failure_count,
outlier_count)` of the Glue job. -/
def calculate_dq_metrics (raw clean dqf outl : ℤ) : DQMetrics :=
  let total_anomalies := dqf + outl
  let gold := clean - outl
  { total_records := raw
    gold_records := gold
    silver_records := dqf
    quarantine_records := outl
    total_anomalies := total_anomalies
    data_quality_score := if 0 < raw then (gold : ℚ) / (raw : ℚ) * 100 else 0
    anomaly_rate := if 0 < raw then (total_anomalies : ℚ) / (raw : ℚ) * 100 else 0 }

/-- The aggregator applied to the counts the pipeline produces for a batch
(`raw_count`, `clean_count`, `dq_failure_count`, `outlier_count`). -/
def runMetrics (today : Date) (b : List Claim) : DQMetrics :=
  calculate_dq_metrics (b.length : ℤ) ((cleanOf today b).length : ℤ)
    ((silverOf today b).length : ℤ) ((quarOf today b).length : ℤ)

/-! ### Concrete fixtures used by witnesses and counterexamples -/

/-- Evaluation date used by the concrete instances. -/
def d0 : Date := 20000

/-- A fully valid claim with the given id and amount. -/
def okClaim (id : String) (amount : ℚ) : Claim :=
  { claim_id := id
    member_id := some "M100"
    provider_id := some "P200"
    provider_npi := some "1234567890"
    cpt_code := some "99213"
    icd10_code := some "E11"
    claim_amount := some amount
    service_date := some 19900
    submission_date := some 19910
    claim_status := some "PAID"
    patient_gender := some "M"
    patient_zip := some "12345" }

/-- A claim whose two dates are unparsable (null), all other fields valid. -/
def cBadDate : Claim :=
  { okClaim "BAD-DATE" 50 with service_date := none, submission_date := none }

/-- A claim with a null status, all other fields valid. -/
def cNullStatus : Claim :=
  { okClaim "NULL-STATUS" 50 with claim_status := none }

/-- A claim missing both `member_id` and `cpt_code`. -/
def cMMCC : Claim :=
  { okClaim "MM-CC" 50 with member_id := none, cpt_code := none }

/-- A claim whose service date is in the future and whose submission date
precedes its service date. -/
def cFS : Claim :=
  { okClaim "FUT-SBS" 50 with
    service_date := some 20010
    submission_date := some 19995 }

/-- Three-clean-claim batch with amounts 0, 2, 4 in one `cpt_code` group
(sample variance 4, standard deviation 2). -/
def batch3 : List Claim :=
  [okClaim "A" 0, okClaim "B" 2, okClaim "C" 4]

/-- Two-claim batch with identical amounts (zero variance). -/
def batch2 : List Claim :=
  [okClaim "A" 5, okClaim "B" 5]

/-- Mixed batch: one valid claim and one claim with rule issues. -/
def batchW : List Claim :=
  [okClaim "A" 10, cMMCC]

/-! ### Helper lemmas -/

lemma mem_guard {p : Prop} [Decidable p] {a b : IssueCode} :
    (a ∈ if p then [b] else ([] : List IssueCode)) ↔ p ∧ a = b := by
  split_ifs with h <;> simp [h]

lemma mem_guard_not {p : Prop} [Decidable p] {a b : IssueCode} :
    (a ∈ if p then ([] : List IssueCode) else [b]) ↔ ¬p ∧ a = b := by
  split_ifs with h <;> simp [h]

/-- Membership in the pandas validator's issue list is exactly the
corresponding rule condition: every rule fires independently. -/
lemma mem_pdIssues (today : Date) (c : Claim) (code : IssueCode) :
    code ∈ pdIssues today c ↔ ruleCond today c code := by
  cases code <;>
    simp [pdIssues, ruleCond, mem_guard, mem_guard_not, List.mem_append]

lemma glueNullBlock_sub (c : Claim) :
    ∀ x ∈ glueNullBlock c,
      x ∈ [MISSING_MEMBER_ID, MISSING_NPI, MISSING_CPT, MISSING_DIAGNOSIS,
        MISSING_AMOUNT] := by
  unfold glueNullBlock
  intro x hx
  split_ifs at hx <;> simp_all

lemma glueNpiBlock_sub (c : Claim) :
    ∀ x ∈ glueNpiBlock c, x ∈ [INVALID_NPI] := by
  intro x hx
  unfold glueNpiBlock at hx
  rcases h : c.provider_npi with _ | s <;> rw [h] at hx
  · simp at hx
  · dsimp only at hx
    split_ifs at hx <;> simp_all

lemma glueAmountBlock_sub (c : Claim) :
    ∀ x ∈ glueAmountBlock c, x ∈ [NEGATIVE_AMOUNT, EXCESSIVE_AMOUNT] := by
  unfold glueAmountBlock
  intro x hx
  split_ifs at hx <;> simp_all

lemma glueDateBlock_sub (today : Date) (c : Claim) :
    ∀ x ∈ glueDateBlock today c,
      x ∈ [FUTURE_SERVICE_DATE, LATE_SUBMISSION, SUBMISSION_BEFORE_SERVICE] := by
  unfold glueDateBlock
  intro x hx
  split_ifs at hx <;> simp_all

lemma glueStatusBlock_sub (c : Claim) :
    ∀ x ∈ glueStatusBlock c, x ∈ [INVALID_STATUS] := by
  intro x hx
  unfold glueStatusBlock at hx
  rcases h : c.claim_status with _ | s <;> rw [h] at hx
  · simp at hx
  · dsimp only at hx
    split_ifs at hx <;> simp_all

lemma glueGenderBlock_sub (c : Claim) :
    ∀ x ∈ glueGenderBlock c, x ∈ [INVALID_GENDER] := by
  intro x hx
  unfold glueGenderBlock at hx
  rcases h : c.patient_gender with _ | s <;> rw [h] at hx
  · simp at hx
  · dsimp only at hx
    split_ifs at hx <;> simp_all

lemma glueZipBlock_sub (c : Claim) :
    ∀ x ∈ glueZipBlock c, x ∈ [INVALID_ZIP] := by
  intro x hx
  unfold glueZipBlock at hx
  rcases h : c.patient_zip with _ | s <;> rw [h] at hx
  · simp at hx
  · dsimp only at hx
    split_ifs at hx <;> simp_all

lemma mem_dateBlock_FUT (today : Date) (c : Claim) :
    FUTURE_SERVICE_DATE ∈ glueDateBlock today c ↔
      dateGt c.service_date today = true := by
  unfold glueDateBlock
  split_ifs with h1 h2 h3 <;> simp_all

lemma mem_dateBlock_LATE (today : Date) (c : Claim) :
    LATE_SUBMISSION ∈ glueDateBlock today c →
      dateDiffGt c.submission_date c.service_date maxDaysToSubmission = true := by
  unfold glueDateBlock
  split_ifs with h1 h2 h3 <;> simp_all

lemma mem_dateBlock_SBS (today : Date) (c : Claim) :
    SUBMISSION_BEFORE_SERVICE ∈ glueDateBlock today c →
      dateBefore c.submission_date c.service_date = true := by
  unfold glueDateBlock
  split_ifs with h1 h2 h3 <;> simp_all

example : glueIssues d0 (okClaim "A" 0) = [] := by decide
example : pdIssues d0 (okClaim "A" 0) = [] := by decide
example : glueIssues d0 cMMCC = [MISSING_MEMBER_ID] := by decide
example : pdIssues d0 cBadDate = [] := by decide
example : groupOf (cleanOf d0 batch3) (okClaim "A" 0) = batch3 := by decide
example : sampleVar batch3 = some 4 := by
  have hm : meanAmt batch3 = 2 := by
    norm_num [meanAmt, batch3, amt, okClaim, List.map, List.sum_cons]
  simp only [sampleVar, hm]
  norm_num [batch3, amt, okClaim, List.map, List.sum_cons]

/-! ### Claim theorems -/

/-- C1: the canonical (additive) Rule Validator — the pandas reference
implementation used for validation testing — evaluates each rule of its
catalogue independently and records every matching rule's issue code: a code
is in the record's issue list exactly when its own rule condition holds, so a
record violating several rules carries all of the corresponding codes (the
reference implementation's catalogue has no ZIP rule, so the INVALID_ZIP
condition is `False` there). -/
theorem pd_validator_additive (today : Date) (c : Claim) (code : IssueCode) :
    code ∈ pdIssues today c ↔ ruleCond today c code :=
  mem_pdIssues today c code

/-- C9: INVALID_STATUS is recorded exactly when `claim_status` is not a
member of {PAID, DENIED, PENDING}; in particular a null status is not a
member and receives INVALID_STATUS. -/
theorem invalid_status_rule (today : Date) (c : Claim) :
    (INVALID_STATUS ∈ pdIssues today c ↔
      ¬ ∃ s, c.claim_status = some s ∧ s ∈ validStatuses) ∧
    (c.claim_status = none → INVALID_STATUS ∈ pdIssues today c) := by
  have h := mem_pdIssues today c INVALID_STATUS
  unfold ruleCond at h
  constructor
  · rw [h]
    unfold pdStatusInvalid
    rcases hs : c.claim_status with _ | s
    · simp [hs]
    · simp [hs, List.elem_iff]
  · intro hnone
    rw [h]
    unfold pdStatusInvalid
    rw [hnone]

/-- C9 witness: a concrete claim with a null status receives
INVALID_STATUS. -/
theorem invalid_status_rule_witness :
    INVALID_STATUS ∈ pdIssues d0 cNullStatus :=
  (invalid_status_rule d0 cNullStatus).2 rfl

/-- C10: in the Glue implementation each chained `when/otherwise` block
records at most one issue code per record; when several conditions of the
same block hold, only the first matching code of the block is recorded and
the later ones are suppressed (a record missing both `member_id` and
`cpt_code` gets MISSING_MEMBER_ID but not MISSING_CPT; a record whose service
date is in the future and whose submission precedes its service date gets
FUTURE_SERVICE_DATE but not SUBMISSION_BEFORE_SERVICE). -/
theorem glue_blocks_first_match (today : Date) (c : Claim) :
    (glueNullBlock c).length ≤ 1 ∧
    (glueDateBlock today c).length ≤ 1 ∧
    (c.member_id = none → glueNullBlock c = [MISSING_MEMBER_ID]) ∧
    (dateGt c.service_date today = true →
      glueDateBlock today c = [FUTURE_SERVICE_DATE]) ∧
    (c.member_id = none ∧ c.cpt_code = none →
      MISSING_MEMBER_ID ∈ glueIssues today c ∧
      MISSING_CPT ∉ glueIssues today c) ∧
    (dateGt c.service_date today = true ∧
      dateBefore c.submission_date c.service_date = true →
      FUTURE_SERVICE_DATE ∈ glueIssues today c ∧
      SUBMISSION_BEFORE_SERVICE ∉ glueIssues today c) := by
  refine ⟨?_, ?_, ?_, ?_, ?_, ?_⟩
  · unfold glueNullBlock
    split_ifs <;> simp
  · unfold glueDateBlock
    split_ifs <;> simp
  · intro hm
    unfold glueNullBlock
    rw [if_pos hm]
  · intro hf
    unfold glueDateBlock
    rw [if_pos hf]
  · rintro ⟨hm, _⟩
    have hblk : glueNullBlock c = [MISSING_MEMBER_ID] := by
      unfold glueNullBlock
      rw [if_pos hm]
    constructor
    · simp [glueIssues, hblk]
    · intro hmem
      simp only [glueIssues, List.mem_append, hblk] at hmem
      rcases hmem with ((((((h | h) | h) | h) | h) | h) | h)
      · simp at h
      · exact absurd (glueNpiBlock_sub c _ h) (by decide)
      · exact absurd (glueAmountBlock_sub c _ h) (by decide)
      · exact absurd (glueDateBlock_sub today c _ h) (by decide)
      · exact absurd (glueStatusBlock_sub c _ h) (by decide)
      · exact absurd (glueGenderBlock_sub c _ h) (by decide)
      · exact absurd (glueZipBlock_sub c _ h) (by decide)
  · rintro ⟨hf, _⟩
    have hblk : glueDateBlock today c = [FUTURE_SERVICE_DATE] := by
      unfold glueDateBlock
      rw [if_pos hf]
    constructor
    · simp [glueIssues, hblk]
    · intro hmem
      simp only [glueIssues, List.mem_append, hblk] at hmem
      rcases hmem with ((((((h | h) | h) | h) | h) | h) | h)
      · exact absurd (glueNullBlock_sub c _ h) (by decide)
      · exact absurd (glueNpiBlock_sub c _ h) (by decide)
      · exact absurd (glueAmountBlock_sub c _ h) (by decide)
      · simp at h
      · exact absurd (glueStatusBlock_sub c _ h) (by decide)
      · exact absurd (glueGenderBlock_sub c _ h) (by decide)
      · exact absurd (glueZipBlock_sub c _ h) (by decide)

/-- C10 witness: on concrete records with two simultaneously true conditions
in one block, only the first code of the block is recorded. -/
theorem glue_blocks_first_match_witness :
    (MISSING_MEMBER_ID ∈ glueIssues d0 cMMCC ∧
      MISSING_CPT ∉ glueIssues d0 cMMCC) ∧
    (FUTURE_SERVICE_DATE ∈ glueIssues d0 cFS ∧
      SUBMISSION_BEFORE_SERVICE ∉ glueIssues d0 cFS) :=
  ⟨(glue_blocks_first_match d0 cMMCC).2.2.2.2.1 (by exact ⟨rfl, rfl⟩),
   (glue_blocks_first_match d0 cFS).2.2.2.2.2 (by exact ⟨by decide, by decide⟩)⟩

/-- C3 counterexample: a claim whose `service_date` and `submission_date`
are unparsable (null) and whose other fields are valid receives no issue
code at all — in particular none of FUTURE_SERVICE_DATE, LATE_SUBMISSION,
SUBMISSION_BEFORE_SERVICE — in either reference implementation, refuting the
claim that unparsable dates are treated as failing the date rules. -/
theorem unparsable_dates_flagged_cex :
    pdIssues d0 cBadDate = [] ∧ glueIssues d0 cBadDate = [] ∧
    FUTURE_SERVICE_DATE ∉ pdIssues d0 cBadDate ∧
    FUTURE_SERVICE_DATE ∉ glueIssues d0 cBadDate := by
  refine ⟨by decide, by decide, by decide, by decide⟩

/-- C3 amended: for every claim whose `service_date` or `submission_date` is
unparsable, the Rule Validator raises no error and treats the unparsable
date as passing (not failing) every date rule that depends on it, so the
record receives none of the corresponding date issue codes from either
reference implementation (a null comparison selects no branch in Spark and
is False in pandas). -/
theorem unparsable_dates_pass (today : Date) (c : Claim) :
    (c.service_date = none →
      FUTURE_SERVICE_DATE ∉ pdIssues today c ∧
      FUTURE_SERVICE_DATE ∉ glueIssues today c) ∧
    (c.service_date = none ∨ c.submission_date = none →
      LATE_SUBMISSION ∉ pdIssues today c ∧
      SUBMISSION_BEFORE_SERVICE ∉ pdIssues today c ∧
      LATE_SUBMISSION ∉ glueIssues today c ∧
      SUBMISSION_BEFORE_SERVICE ∉ glueIssues today c) := by
  have hfut : ∀ h : FUTURE_SERVICE_DATE ∈ glueIssues today c,
      dateGt c.service_date today = true := by
    intro h
    simp only [glueIssues, List.mem_append] at h
    rcases h with ((((((h | h) | h) | h) | h) | h) | h)
    · exact absurd (glueNullBlock_sub c _ h) (by decide)
    · exact absurd (glueNpiBlock_sub c _ h) (by decide)
    · exact absurd (glueAmountBlock_sub c _ h) (by decide)
    · exact (mem_dateBlock_FUT today c).1 h
    · exact absurd (glueStatusBlock_sub c _ h) (by decide)
    · exact absurd (glueGenderBlock_sub c _ h) (by decide)
    · exact absurd (glueZipBlock_sub c _ h) (by decide)
  have hlate : ∀ h : LATE_SUBMISSION ∈ glueIssues today c,
      dateDiffGt c.submission_date c.service_date maxDaysToSubmission = true := by
    intro h
    simp only [glueIssues, List.mem_append] at h
    rcases h with ((((((h | h) | h) | h) | h) | h) | h)
    · exact absurd (glueNullBlock_sub c _ h) (by decide)
    · exact absurd (glueNpiBlock_sub c _ h) (by decide)
    · exact absurd (glueAmountBlock_sub c _ h) (by decide)
    · exact mem_dateBlock_LATE today c h
    · exact absurd (glueStatusBlock_sub c _ h) (by decide)
    · exact absurd (glueGenderBlock_sub c _ h) (by decide)
    · exact absurd (glueZipBlock_sub c _ h) (by decide)
  have hsbs : ∀ h : SUBMISSION_BEFORE_SERVICE ∈ glueIssues today c,
      dateBefore c.submission_date c.service_date = true := by
    intro h
    simp only [glueIssues, List.mem_append] at h
    rcases h with ((((((h | h) | h) | h) | h) | h) | h)
    · exact absurd (glueNullBlock_sub c _ h) (by decide)
    · exact absurd (glueNpiBlock_sub c _ h) (by decide)
    · exact absurd (glueAmountBlock_sub c _ h) (by decide)
    · exact mem_dateBlock_SBS today c h
    · exact absurd (glueStatusBlock_sub c _ h) (by decide)
    · exact absurd (glueGenderBlock_sub c _ h) (by decide)
    · exact absurd (glueZipBlock_sub c _ h) (by decide)
  constructor
  · intro hs
    constructor
    · rw [mem_pdIssues]
      unfold ruleCond dateGt
      rw [hs]
      simp
    · intro h
      have := hfut h
      unfold dateGt at this
      rw [hs] at this
      simp at this
  · intro hor
    have hdiff : dateDiffGt c.submission_date c.service_date maxDaysToSubmission = false := by
      rcases hor with hs | hs <;>
        rcases hsub : c.submission_date with _ | x <;>
        rcases hsvc : c.service_date with _ | y <;>
        simp_all [dateDiffGt]
    have hbef : dateBefore c.submission_date c.service_date = false := by
      rcases hor with hs | hs <;>
        rcases hsub : c.submission_date with _ | x <;>
        rcases hsvc : c.service_date with _ | y <;>
        simp_all [dateBefore]
    refine ⟨?_, ?_, ?_, ?_⟩
    · rw [mem_pdIssues]
      unfold ruleCond
      simp [hdiff]
    · rw [mem_pdIssues]
      unfold ruleCond
      simp [hbef]
    · intro h
      rw [hlate h] at hdiff
      exact Bool.noConfusion hdiff
    · intro h
      rw [hsbs h] at hbef
      exact Bool.noConfusion hbef

/-- C3 amended witness: the concrete claim with null dates receives no date
issue code. -/
theorem unparsable_dates_pass_witness :
    LATE_SUBMISSION ∉ pdIssues d0 cBadDate ∧
    SUBMISSION_BEFORE_SERVICE ∉ pdIssues d0 cBadDate ∧
    LATE_SUBMISSION ∉ glueIssues d0 cBadDate ∧
    SUBMISSION_BEFORE_SERVICE ∉ glueIssues d0 cBadDate :=
  (unparsable_dates_pass d0 cBadDate).2 (Or.inl rfl)

/-- SILVER and the rule-clean rows partition the batch (split of the
validated frame on `has_dq_issues`). -/
lemma silver_clean_perm (today : Date) (b : List Claim) :
    (silverOf today b ++ cleanOf today b).Perm b :=
  List.filter_append_perm (fun c => hasIssues today c) b

/-- QUARANTINE and GOLD partition the rule-clean rows (split of the scored
frame on `is_statistical_outlier`). -/
lemma quar_gold_perm (today : Date) (b : List Claim) :
    (quarOf today b ++ goldOf today b).Perm (cleanOf today b) :=
  List.filter_append_perm (fun c => outFlag today b c) (cleanOf today b)

/-- C8: which rule issue codes a record receives depends only on the record
itself (and the evaluation date), never on the other records of the batch:
the same record carries the same issue list in any two batches, its SILVER
status is equivalent to having a non-empty issue list, and hence its SILVER
status is identical across batches. -/
theorem issues_batch_independent (today : Date) (b1 b2 : List Claim)
    (c : Claim) (is1 is2 : List IssueCode) :
    ((c, is1) ∈ validateBatch today b1 → (c, is2) ∈ validateBatch today b2 →
      is1 = is2) ∧
    (c ∈ b1 → (c ∈ silverOf today b1 ↔ glueIssues today c ≠ [])) ∧
    (c ∈ b1 → c ∈ b2 →
      (c ∈ silverOf today b1 ↔ c ∈ silverOf today b2)) := by
  have key : ∀ (b : List Claim) (l : List IssueCode),
      (c, l) ∈ validateBatch today b → l = glueIssues today c := by
    intro b l hmem
    unfold validateBatch at hmem
    rcases List.mem_map.1 hmem with ⟨a, _, ha⟩
    have h1 : a = c := congrArg Prod.fst ha
    have h2 : glueIssues today a = l := congrArg Prod.snd ha
    rw [← h2, h1]
  have hsilver : ∀ b : List Claim, c ∈ b →
      (c ∈ silverOf today b ↔ glueIssues today c ≠ []) := by
    intro b hb
    unfold silverOf
    rw [List.mem_filter]
    unfold hasIssues
    simp [hb, List.isEmpty_iff]
  refine ⟨?_, hsilver b1, ?_⟩
  · intro h1 h2
    rw [key b1 is1 h1, key b2 is2 h2]
  · intro hb1 hb2
    rw [hsilver b1 hb1, hsilver b2 hb2]

/-- C8 witness: a concrete record keeps its issue list and SILVER status
across two different batches. -/
theorem issues_batch_independent_witness :
    (okClaim "A" 10 ∈ silverOf d0 [okClaim "A" 10] ↔
      okClaim "A" 10 ∈ silverOf d0 batchW) :=
  (issues_batch_independent d0 [okClaim "A" 10] batchW (okClaim "A" 10)
    [] []).2.2 (by decide) (by decide)

/-- C2: the three tier outputs partition the input batch: their
concatenation is a permutation of the batch (every input record appears
exactly once across the tiers), the three counts sum to the batch size, and
no record belongs to two different tiers. -/
theorem tiers_partition (today : Date) (b : List Claim) :
    ((goldOf today b ++ quarOf today b) ++ silverOf today b).Perm b ∧
    (goldOf today b).length + (silverOf today b).length +
      (quarOf today b).length = b.length ∧
    (∀ c : Claim,
      (c ∈ goldOf today b → c ∉ silverOf today b ∧ c ∉ quarOf today b) ∧
      (c ∈ silverOf today b → c ∉ quarOf today b)) := by
  have hgq : (goldOf today b ++ quarOf today b).Perm (cleanOf today b) :=
    (List.perm_append_comm).trans (quar_gold_perm today b)
  have hperm : ((goldOf today b ++ quarOf today b) ++ silverOf today b).Perm b :=
    ((hgq.append_right (silverOf today b)).trans List.perm_append_comm).trans
      (silver_clean_perm today b)
  refine ⟨hperm, ?_, ?_⟩
  · have := hperm.length_eq
    simp only [List.length_append] at this
    omega
  · intro c
    constructor
    · intro hg
      have hclean := List.mem_filter.1 hg
      have hno : hasIssues today c = false := by
        have := (List.mem_filter.1 hclean.1).2
        simpa using this
      constructor
      · intro hs
        have : hasIssues today c = true := (List.mem_filter.1 hs).2
        rw [hno] at this
        exact Bool.noConfusion this
      · intro hq
        have : outFlag today b c = true := (List.mem_filter.1 hq).2
        have hf : outFlag today b c = false := by simpa using hclean.2
        rw [hf] at this
        exact Bool.noConfusion this
    · intro hs hq
      have h1 : hasIssues today c = true := (List.mem_filter.1 hs).2
      have h2 : hasIssues today c = false := by
        have := (List.mem_filter.1 (List.mem_filter.1 hq).1).2
        simpa using this
      rw [h2] at h1
      exact Bool.noConfusion h1

/-- C2 witness: on a concrete mixed batch the tiers reconstruct the batch
and a GOLD record is in no other tier. -/
theorem tiers_partition_witness :
    ((goldOf d0 batchW ++ quarOf d0 batchW) ++ silverOf d0 batchW).Perm batchW ∧
    okClaim "A" 10 ∉ silverOf d0 batchW := by
  have h := tiers_partition d0 batchW
  exact ⟨h.1, (((h.2.2 (okClaim "A" 10)).1 (by decide)).1)⟩

/-- C6: the Metrics Aggregator computes `total_anomalies = silver + quarantine`,
`data_quality_score = 100 * gold / total`, `anomaly_rate = 100 *
total_anomalies / total`, both percentages being 0 when `total_records = 0`;
an empty batch yields a snapshot with all counts 0 and both rates 0. -/
theorem metrics_formulas (raw clean dqf outl : ℤ) :
    (calculate_dq_metrics raw clean dqf outl).total_anomalies = dqf + outl ∧
    (calculate_dq_metrics raw clean dqf outl).gold_records = clean - outl ∧
    (0 < raw →
      (calculate_dq_metrics raw clean dqf outl).data_quality_score =
        100 * ((calculate_dq_metrics raw clean dqf outl).gold_records : ℚ) /
          (raw : ℚ) ∧
      (calculate_dq_metrics raw clean dqf outl).anomaly_rate =
        100 * ((calculate_dq_metrics raw clean dqf outl).total_anomalies : ℚ) /
          (raw : ℚ)) ∧
    (raw = 0 →
      (calculate_dq_metrics raw clean dqf outl).data_quality_score = 0 ∧
      (calculate_dq_metrics raw clean dqf outl).anomaly_rate = 0) ∧
    (∀ today : Date, runMetrics today [] = ⟨0, 0, 0, 0, 0, 0, 0⟩) := by
  refine ⟨rfl, rfl, ?_, ?_, ?_⟩
  · intro h
    have hgold : (calculate_dq_metrics raw clean dqf outl).gold_records =
        clean - outl := rfl
    have hta : (calculate_dq_metrics raw clean dqf outl).total_anomalies =
        dqf + outl := rfl
    rw [hgold, hta]
    constructor
    · show (if 0 < raw then ((clean - outl : ℤ) : ℚ) / (raw : ℚ) * 100 else 0) = _
      rw [if_pos h]
      ring
    · show (if 0 < raw then ((dqf + outl : ℤ) : ℚ) / (raw : ℚ) * 100 else 0) = _
      rw [if_pos h]
      ring
  · intro h
    subst h
    constructor
    · show (if (0:ℤ) < 0 then ((clean - outl : ℤ) : ℚ) / ((0:ℤ) : ℚ) * 100 else 0) = 0
      norm_num
    · show (if (0:ℤ) < 0 then ((dqf + outl : ℤ) : ℚ) / ((0:ℤ) : ℚ) * 100 else 0) = 0
      norm_num
  · intro today
    show calculate_dq_metrics 0 0 0 0 = _
    unfold calculate_dq_metrics
    norm_num

/-- C6 witness: the formulas at concrete counts, and a concrete empty
batch. -/
theorem metrics_formulas_witness :
    (calculate_dq_metrics 5 3 2 1).total_anomalies = 3 ∧
    (calculate_dq_metrics 5 3 2 1).data_quality_score =
      100 * ((calculate_dq_metrics 5 3 2 1).gold_records : ℚ) / 5 ∧
    runMetrics d0 [] = ⟨0, 0, 0, 0, 0, 0, 0⟩ := by
  have h := metrics_formulas 5 3 2 1
  exact ⟨h.1, (h.2.2.1 (by norm_num)).1, h.2.2.2.2 d0⟩

/-- C7: `data_quality_score` and `anomaly_rate` always lie in [0, 100], and
when the batch is non-empty they are sum-consistent:
`data_quality_score + 100 * (silver + quarantine) / total = 100`. -/
theorem metrics_bounds (today : Date) (b : List Claim) :
    (0 ≤ (runMetrics today b).data_quality_score ∧
      (runMetrics today b).data_quality_score ≤ 100) ∧
    (0 ≤ (runMetrics today b).anomaly_rate ∧
      (runMetrics today b).anomaly_rate ≤ 100) ∧
    (0 < b.length →
      (runMetrics today b).data_quality_score +
        100 * (((runMetrics today b).silver_records +
            (runMetrics today b).quarantine_records : ℤ) : ℚ) /
          (((runMetrics today b).total_records : ℤ) : ℚ) = 100) := by
  have hsc := (silver_clean_perm today b).length_eq
  rw [List.length_append] at hsc
  have hqg := (quar_gold_perm today b).length_eq
  rw [List.length_append] at hqg
  by_cases hn : 0 < b.length
  · have hnz : (0:ℤ) < (b.length : ℤ) := by exact_mod_cast hn
    have hgz : ((cleanOf today b).length : ℤ) - ((quarOf today b).length : ℤ) =
        ((goldOf today b).length : ℤ) := by omega
    have hq0 : (0:ℚ) < (b.length : ℚ) := by exact_mod_cast hn
    have hgle : ((goldOf today b).length : ℚ) ≤ (b.length : ℚ) := by
      have : (goldOf today b).length ≤ b.length := by omega
      exact_mod_cast this
    have hsqle : ((silverOf today b).length : ℚ) +
        ((quarOf today b).length : ℚ) ≤ (b.length : ℚ) := by
      have : (silverOf today b).length + (quarOf today b).length ≤ b.length := by
        omega
      exact_mod_cast this
    have hsum : ((goldOf today b).length : ℚ) + ((silverOf today b).length : ℚ) +
        ((quarOf today b).length : ℚ) = (b.length : ℚ) := by
      have : (goldOf today b).length + (silverOf today b).length +
          (quarOf today b).length = b.length := by omega
      exact_mod_cast this
    unfold runMetrics calculate_dq_metrics
    simp only [if_pos hnz, hgz]
    push_cast
    refine ⟨⟨by positivity, ?_⟩, ⟨by positivity, ?_⟩, ?_⟩
    · rw [div_mul_eq_mul_div, div_le_iff₀ hq0]
      nlinarith
    · rw [div_mul_eq_mul_div, div_le_iff₀ hq0]
      nlinarith
    · intro _
      field_simp
      nlinarith
  · have hz : b.length = 0 := by omega
    have hnz : ¬ (0:ℤ) < (b.length : ℤ) := by
      rw [hz]
      norm_num
    unfold runMetrics calculate_dq_metrics
    simp only [if_neg hnz]
    norm_num
    intro h
    exact absurd h hn

/-- C7 witness: bounds and sum-consistency at a concrete non-empty batch. -/
theorem metrics_bounds_witness :
    0 ≤ (runMetrics d0 batchW).data_quality_score ∧
    (runMetrics d0 batchW).data_quality_score ≤ 100 ∧
    (runMetrics d0 batchW).data_quality_score +
      100 * (((runMetrics d0 batchW).silver_records +
          (runMetrics d0 batchW).quarantine_records : ℤ) : ℚ) /
        (((runMetrics d0 batchW).total_records : ℤ) : ℚ) = 100 := by
  have h := metrics_bounds d0 batchW
  exact ⟨h.1.1, h.1.2, h.2.2 (by decide)⟩

/-- Squared comparison against the z-score threshold: over a positive
standard deviation `s`, `(amount - mean)^2 > 9 * variance` is the same as
`|amount - mean| / s > 3`. -/
lemma nine_var_lt_iff (a s : ℚ) (hs : 0 < s) :
    9 * (s * s) < a ^ 2 ↔ 3 < |a| / s := by
  rw [lt_div_iff₀ hs]
  constructor
  · intro h
    have h2 : (3 * s) ^ 2 < |a| ^ 2 := by
      rw [sq_abs]
      nlinarith
    exact lt_of_pow_lt_pow_left₀ 2 (abs_nonneg a) h2
  · intro h
    have h2 : (3 * s) ^ 2 < |a| ^ 2 :=
      pow_lt_pow_left₀ h (by positivity) (by norm_num)
    rw [sq_abs] at h2
    nlinarith

/-- C4: for a rule-clean claim whose `cpt_code` group has strictly positive
standard deviation `s` (so `s * s` is the group's sample variance), the
detector's z-score is `(claim_amount - mean) / s` and the claim is flagged
as a statistical outlier exactly when `|z| > 3`. -/
theorem zscore_outlier_rule (today : Date) (b : List Claim) (c : Claim)
    (v s : ℚ) (_hc : c ∈ cleanOf today b)
    (hv : sampleVar (groupOf (cleanOf today b) c) = some v)
    (_hvpos : 0 < v) (hs : 0 < s) (hss : s * s = v) :
    zScoreWith (meanAmt (groupOf (cleanOf today b) c)) s (amt c) =
      (amt c - meanAmt (groupOf (cleanOf today b) c)) / s ∧
    (outlierIn (groupOf (cleanOf today b) c) c = true ↔
      3 < |zScoreWith (meanAmt (groupOf (cleanOf today b) c)) s (amt c)|) := by
  have hz : zScoreWith (meanAmt (groupOf (cleanOf today b) c)) s (amt c) =
      (amt c - meanAmt (groupOf (cleanOf today b) c)) / s := if_pos hs
  refine ⟨hz, ?_⟩
  rw [hz, abs_div, abs_of_pos hs]
  unfold outlierIn
  rw [hv]
  simp only [Bool.and_eq_true, decide_eq_true_eq]
  rw [← hss]
  constructor
  · rintro ⟨_, h⟩
    exact (nine_var_lt_iff (amt c - meanAmt (groupOf (cleanOf today b) c)) s hs).1 h
  · intro h
    refine ⟨mul_pos hs hs, ?_⟩
    exact (nine_var_lt_iff (amt c - meanAmt (groupOf (cleanOf today b) c)) s hs).2 h

/-- Concrete evaluation: the `batch3` group (amounts 0, 2, 4) has sample
variance 4. -/
lemma sampleVar_batch3 : sampleVar batch3 = some 4 := by
  have hm : meanAmt batch3 = 2 := by
    norm_num [meanAmt, batch3, amt, okClaim, List.map, List.sum_cons]
  simp only [sampleVar, hm]
  norm_num [batch3, amt, okClaim, List.map, List.sum_cons]

/-- C4 witness: the concrete group of amounts 0, 2, 4 (variance 4, standard
deviation 2), where the first member's z-score is `(0 - 2) / 2` and is not
flagged. -/
theorem zscore_outlier_rule_witness :
    zScoreWith (meanAmt (groupOf (cleanOf d0 batch3) (okClaim "A" 0))) 2
        (amt (okClaim "A" 0)) =
      (amt (okClaim "A" 0) -
        meanAmt (groupOf (cleanOf d0 batch3) (okClaim "A" 0))) / 2 ∧
    (outlierIn (groupOf (cleanOf d0 batch3) (okClaim "A" 0))
        (okClaim "A" 0) = true ↔
      3 < |zScoreWith (meanAmt (groupOf (cleanOf d0 batch3) (okClaim "A" 0))) 2
        (amt (okClaim "A" 0))|) := by
  have hgrp : groupOf (cleanOf d0 batch3) (okClaim "A" 0) = batch3 := by decide
  refine zscore_outlier_rule d0 batch3 (okClaim "A" 0) 4 2 (by decide) ?_
    (by norm_num) (by norm_num) (by norm_num)
  rw [hgrp]
  exact sampleVar_batch3

/-- C5: in a group whose claim amounts are all identical (including
singleton and empty join groups), the sample standard deviation is 0 (the
variance is 0, or null for groups smaller than two), the guarded z-score is
exactly 0, and the member is never flagged as a statistical outlier — no
division by zero occurs. -/
theorem zero_variance_guard (today : Date) (b : List Claim) (c : Claim)
    (_hc : c ∈ cleanOf today b)
    (hall : ∀ d ∈ groupOf (cleanOf today b) c, amt d = amt c) :
    (sampleVar (groupOf (cleanOf today b) c) = none ∨
      sampleVar (groupOf (cleanOf today b) c) = some 0) ∧
    zScoreWith (meanAmt (groupOf (cleanOf today b) c)) 0 (amt c) = 0 ∧
    outlierIn (groupOf (cleanOf today b) c) c = false := by
  have hz : zScoreWith (meanAmt (groupOf (cleanOf today b) c)) 0 (amt c) = 0 :=
    if_neg (lt_irrefl 0)
  by_cases hlen : (groupOf (cleanOf today b) c).length ≤ 1
  · have hvar : sampleVar (groupOf (cleanOf today b) c) = none := if_pos hlen
    refine ⟨Or.inl hvar, hz, ?_⟩
    unfold outlierIn
    rw [hvar]
  · have hne : (groupOf (cleanOf today b) c).length ≠ 0 := by omega
    have hrep : (groupOf (cleanOf today b) c).map amt =
        List.replicate (groupOf (cleanOf today b) c).length (amt c) := by
      rw [List.eq_replicate_iff]
      refine ⟨by simp, ?_⟩
      intro x hx
      rcases List.mem_map.1 hx with ⟨d, hd, rfl⟩
      exact hall d hd
    have hmean : meanAmt (groupOf (cleanOf today b) c) = amt c := by
      unfold meanAmt
      rw [hrep, List.sum_replicate, nsmul_eq_mul, mul_comm, mul_div_assoc,
        div_self (Nat.cast_ne_zero.mpr hne), mul_one]
    have hvar : sampleVar (groupOf (cleanOf today b) c) = some 0 := by
      unfold sampleVar
      rw [if_neg hlen, hrep, hmean, List.map_replicate]
      simp
    refine ⟨Or.inr hvar, hz, ?_⟩
    unfold outlierIn
    rw [hvar]
    simp

/-- C5 witness: a concrete two-member group with identical amounts gets
variance 0 and no outlier flag. -/
theorem zero_variance_guard_witness :
    (sampleVar (groupOf (cleanOf d0 batch2) (okClaim "A" 5)) = none ∨
      sampleVar (groupOf (cleanOf d0 batch2) (okClaim "A" 5)) = some 0) ∧
    zScoreWith (meanAmt (groupOf (cleanOf d0 batch2) (okClaim "A" 5))) 0
      (amt (okClaim "A" 5)) = 0 ∧
    outlierIn (groupOf (cleanOf d0 batch2) (okClaim "A" 5))
      (okClaim "A" 5) = false :=
  zero_variance_guard d0 batch2 (okClaim "A" 5) (by decide) (by decide)
